import Mathlib

set_option linter.unusedVariables false

/-!
Shallow embedding of the faasm WAVM MPI guest-to-host translation layer
(`src/wavm/mpi.cpp`).  Guest pointers are wasm linear-memory offsets
(32-bit) modelled as `Nat`; machine integers carried through the ABI are
modelled as `Int`.  Each host function is translated to a Lean function
returning `Except Fault ...`: a `.error` models a thrown C++ exception
(which kills the function instance), `.ok` models a normal return whose
first component is the integer code handed back to the guest.  Effects on
guest memory and calls into the external coordination engine (faabric's
`MpiWorld`) are made explicit in the returned records.
-/

namespace FaasmMpi

/-- Success code returned to the guest (`MPI_SUCCESS` in the faabric MPI
header). -/
def MPI_SUCCESS : Int := 0

/-- Modelled from the spec: identifier of the single recognized
communicator (`FAABRIC_COMM_WORLD`), defined in the faabric dependency
header which is not under `src/`; only its distinguishedness matters to
the claims, not its numeric value. -/
def FAABRIC_COMM_WORLD : Int := 1

/-- Modelled from the spec: identifier of the null info object
(`FAABRIC_INFO_NULL`), defined in the faabric dependency header which is
not under `src/`; only its distinguishedness matters to the claims. -/
def FAABRIC_INFO_NULL : Int := 1

/-- Modelled from the spec: the reserved in-place sentinel pointer value
(`FAABRIC_IN_PLACE`), defined in the faabric dependency header which is
not under `src/`.  The spec calls it "one reserved pointer value"; since
`isInPlace` compares it against a `U8`-truncated pointer, recognition is
only possible for a byte-range value.  The claims below are invariant to
which byte value it is. -/
def FAABRIC_IN_PLACE : Nat := 0

/-- Modelled from the spec: the fixed dimensionality of the synthetic
cartesian topology (`MPI_CART_MAX_DIMENSIONS`); the spec fixes it at two
("a fixed two-dimensional grid", "fills exactly 2 ... slots"). -/
def MPI_CART_MAX_DIMENSIONS : Int := 2

/-- Overlay of the `faabric_datatype_t` descriptor: the layer only reads its
`size` field (bytes per element). -/
structure faabric_datatype_t where
  size : Nat
deriving DecidableEq, Repr

/-- Overlay of the `faabric_communicator_t` descriptor: just `id`. -/
structure faabric_communicator_t where
  id : Int
deriving DecidableEq, Repr

/-- Overlay of the `faabric_info_t` descriptor: just `id`. -/
structure faabric_info_t where
  id : Int
deriving DecidableEq, Repr

/-- Status record (`MPI_Status`): the layer only reads `bytesSize`, the actual
transferred byte count. -/
structure MPI_Status where
  bytesSize : Nat
deriving DecidableEq, Repr

/-- A borrowed view over guest memory produced by
`Runtime::memoryArrayPtr<uint8_t>(memory, ptr, len)`: base wasm offset
and byte length.  Two views are the same view iff both components
agree. -/
structure MemView where
  ptr : Nat
  len : Nat
deriving DecidableEq, Repr

/-- Embedding of `Runtime::memoryArrayPtr<uint8_t>` on (pointer, length):
constructs a bounds-checked borrowed view. -/
def memoryArrayPtr (ptr len : Nat) : MemView := ⟨ptr, len⟩

/-- Faults: a thrown C++ exception terminating the function instance.
`notImplemented name` models the `"... not implemented"` runtime errors,
`badComm` the unrecognised-communicator throw, `badDims` the
`MPI_Cart_get` dimension throw, `nonNullInfo` the `MPI_Alloc_mem` info
throw, `noContext` a dereference of the nulled-out thread-local
context. -/
inductive Fault where
  | notImplemented (name : String)
  | badComm (id : Int)
  | badDims (maxdims : Int)
  | nonNullInfo
  | noContext
deriving DecidableEq, Repr

/-- Embedding of `ContextWrapper::checkMpiComm`: fatal unless the descriptor overlay
at the communicator pointer identifies `FAABRIC_COMM_WORLD`. -/
def checkMpiComm (comm : faabric_communicator_t) : Except Fault Unit :=
  if comm.id = FAABRIC_COMM_WORLD then .ok () else .error (.badComm comm.id)

/-- Embedding of `bool isInPlace(U8 wasmPtr)`, whose body is
`return wasmPtr == FAABRIC_IN_PLACE;`.  The parameter type is `U8`, so the 32-bit guest pointer passed at every
call site is implicitly truncated to its low byte (`% 256`) before the
comparison. -/
def isInPlace (wasmPtr : Nat) : Bool :=
  wasmPtr % 256 == FAABRIC_IN_PLACE

/-! Unsupported calls.  Each of these host functions has a body that unconditionally throws
`std::runtime_error` before its `return MPI_SUCCESS` line, for every
input.  The arguments are received (and logged) but never influence the
outcome. -/

def MPI_Rsend (buffer count datatype destRank tag comm : Int) :
    Except Fault Int :=
  .error (.notImplemented "MPI_Rsend")

def MPI_Waitall (count requestArray statusArray : Int) : Except Fault Int :=
  .error (.notImplemented "MPI_Waitall")

def MPI_Waitany (count requestArray idx status : Int) : Except Fault Int :=
  .error (.notImplemented "MPI_Waitany")

def MPI_Allgatherv
    (sendBuf sendCount sendType recvBuf recvCount dspls recvType comm : Int) :
    Except Fault Int :=
  .error (.notImplemented "MPI_Allgatherv")

def MPI_Alltoallv
    (sendBuf sendCount sdispls sendType recvBuf recvCount rdispls recvType
      comm : Int) : Except Fault Int :=
  .error (.notImplemented "MPI_Alltoallv")

def MPI_Reduce_scatter (sendBuf recvBuf recvCount datatype op comm : Int) :
    Except Fault Int :=
  .error (.notImplemented "MPI_Reduce_scatter")

def MPI_Op_create (userFn commute op : Int) : Except Fault Int :=
  .error (.notImplemented "MPI_Op_create")

def MPI_Op_free (op : Int) : Except Fault Int :=
  .error (.notImplemented "MPI_Op_free")

def MPI_Win_create (basePtr size dispUnit info comm winPtrPtr : Int) :
    Except Fault Int :=
  .error (.notImplemented "MPI_Win_create")

def MPI_Win_fence (assertArg winPtr : Int) : Except Fault Int :=
  .error (.notImplemented "MPI_Win_fence")

def MPI_Get
    (recvBuf recvCount recvType sendRank sendOffset sendCount sendType
      winPtr : Int) : Except Fault Int :=
  .error (.notImplemented "MPI_Get")

def MPI_Put
    (sendBuf sendCount sendType recvRank recvOffset recvCount recvType
      winPtr : Int) : Except Fault Int :=
  .error (.notImplemented "MPI_Put")

def MPI_Win_free (winPtr : Int) : Except Fault Int :=
  .error (.notImplemented "MPI_Win_free")

def MPI_Win_get_attr (winPtr attrKey attrResPtrPtr flagResPtr : Int) :
    Except Fault Int :=
  .error (.notImplemented "MPI_Win_get_attr")

def MPI_Comm_dup (comm newComm : Int) : Except Fault Int :=
  .error (.notImplemented "MPI_Comm_dup")

def MPI_Comm_split (comm color key newComm : Int) : Except Fault Int :=
  .error (.notImplemented "MPI_Comm_split")

def MPI_Comm_c2f (comm : Int) : Except Fault Int :=
  .error (.notImplemented "MPI_Comm_c2f")

def MPI_Comm_f2c (fComm : Int) : Except Fault Int :=
  .error (.notImplemented "MPI_Comm_f2c")

def MPI_Request_free (requestPtr : Int) : Except Fault Int :=
  .error (.notImplemented "MPI_Request_free")

def MPI_Type_free (datatype : Int) : Except Fault Int :=
  .error (.notImplemented "MPI_Type_free")

def MPI_Get_version (version subversion : Int) : Except Fault Int :=
  .error (.notImplemented "MPI_Get_version")

/-! Count query. -/

/-- Embedding of `MPI_Get_count`: reads `status->bytesSize` and the datatype size.
If the transferred byte count is not an exact multiple of the datatype
size it logs an error and returns `1` without writing through `countPtr`;
otherwise it writes `bytesSize / size` through `countPtr` and returns
`MPI_SUCCESS`.  The result pairs the returned code with the value
written through the output pointer (`none` when nothing is written).
Never throws. -/
def MPI_Get_count (status : MPI_Status) (dtype : faabric_datatype_t) :
    Except Fault (Int × Option Nat) :=
  if status.bytesSize % dtype.size ≠ 0 then
    .ok (1, none)
  else
    .ok (MPI_SUCCESS, some (status.bytesSize / dtype.size))

/-! Collectives with separate send/receive buffers.  Each host function
first resolves the receive buffer, then checks the send pointer against
the in-place sentinel: when in place, the receive view itself is used as
the send buffer; otherwise a second view is resolved from the send
pointer.  The record below captures, in construction order, every view
built by `Runtime::memoryArrayPtr` during the call, and the send/receive
views handed to the coordination engine. -/

structure CollectiveCall where
  viewsBuilt : List MemView
  sendView : MemView
  recvView : MemView
deriving DecidableEq, Repr

/-- Shared shape of the in-place branch in `MPI_Gather`, `MPI_Allgather`,
`MPI_Reduce`, `MPI_Allreduce` and `MPI_Scan`: the receive buffer is
resolved with `recvLen` bytes first; in place, it doubles as the send
buffer; otherwise the send buffer is resolved with `sendLen` bytes. -/
def resolveCollectiveBuffers (sendBuf recvBuf sendLen recvLen : Nat) :
    CollectiveCall :=
  let hostRecvBuffer := memoryArrayPtr recvBuf recvLen
  if isInPlace sendBuf then
    { viewsBuilt := [hostRecvBuffer]
      sendView := hostRecvBuffer
      recvView := hostRecvBuffer }
  else
    let hostSendBuffer := memoryArrayPtr sendBuf sendLen
    { viewsBuilt := [hostRecvBuffer, hostSendBuffer]
      sendView := hostSendBuffer
      recvView := hostRecvBuffer }

/-- Embedding of `MPI_Gather`: checks the communicator, resolves the
receive view of `recvCount * recvType.size` bytes, resolves or aliases
the send view of `sendCount * sendType.size` bytes per the in-place
check, then delegates to `world.gather`. -/
def MPI_Gather (sendBuf sendCount : Nat) (sendType : faabric_datatype_t)
    (recvBuf recvCount : Nat) (recvType : faabric_datatype_t) (root : Int)
    (comm : faabric_communicator_t) : Except Fault (Int × CollectiveCall) := do
  checkMpiComm comm
  let c := resolveCollectiveBuffers sendBuf recvBuf
    (sendCount * sendType.size) (recvCount * recvType.size)
  return (MPI_SUCCESS, c)

/-- Embedding of `MPI_Allgather`: as `MPI_Gather` without a root
argument, delegating to `world.allGather`. -/
def MPI_Allgather (sendBuf sendCount : Nat) (sendType : faabric_datatype_t)
    (recvBuf recvCount : Nat) (recvType : faabric_datatype_t)
    (comm : faabric_communicator_t) : Except Fault (Int × CollectiveCall) := do
  checkMpiComm comm
  let c := resolveCollectiveBuffers sendBuf recvBuf
    (sendCount * sendType.size) (recvCount * recvType.size)
  return (MPI_SUCCESS, c)

/-- Embedding of `MPI_Reduce`: single datatype and count; both views are
`count * dtype.size` bytes; delegates to `world.reduce`. -/
def MPI_Reduce (sendBuf recvBuf count : Nat) (dtype : faabric_datatype_t)
    (op : Int) (root : Int) (comm : faabric_communicator_t) :
    Except Fault (Int × CollectiveCall) := do
  checkMpiComm comm
  let c := resolveCollectiveBuffers sendBuf recvBuf
    (count * dtype.size) (count * dtype.size)
  return (MPI_SUCCESS, c)

/-- Embedding of `MPI_Allreduce`: note that in the source both buffer
views are resolved with length `count` (bytes), not
`count * dtype.size`; delegates to `world.allReduce`. -/
def MPI_Allreduce (sendBuf recvBuf count : Nat) (dtype : faabric_datatype_t)
    (op : Int) (comm : faabric_communicator_t) :
    Except Fault (Int × CollectiveCall) := do
  checkMpiComm comm
  let c := resolveCollectiveBuffers sendBuf recvBuf count count
  return (MPI_SUCCESS, c)

/-- Embedding of `MPI_Scan`: same buffer handling as `MPI_Reduce`,
delegating to `world.scan`. -/
def MPI_Scan (sendBuf recvBuf count : Nat) (dtype : faabric_datatype_t)
    (op : Int) (comm : faabric_communicator_t) :
    Except Fault (Int × CollectiveCall) := do
  checkMpiComm comm
  let c := resolveCollectiveBuffers sendBuf recvBuf
    (count * dtype.size) (count * dtype.size)
  return (MPI_SUCCESS, c)

/-! Point-to-point calls.  The source resolves the guest buffer with
`Runtime::memoryArrayPtr<uint8_t>(ctx->memory, buffer, count)` — length
`count` bytes — in `MPI_Send`, `MPI_Recv`, `MPI_Isend` and `MPI_Irecv`,
while `MPI_Sendrecv` resolves `sendCount * sendType.size` and
`recvCount * recvType.size` byte views. -/

/-- Embedding of `MPI_Send`: checks the communicator, reads the datatype
descriptor, resolves a `count`-byte view over the guest buffer, calls
`world.send(rank, destRank, inputs, hostDtype, count)` and returns 0.
The second component is the view handed to the engine. -/
def MPI_Send (buffer count : Nat) (dtype : faabric_datatype_t)
    (destRank tag : Int) (comm : faabric_communicator_t) :
    Except Fault (Int × MemView) := do
  checkMpiComm comm
  let inputs := memoryArrayPtr buffer count
  return (0, inputs)

/-- Embedding of `MPI_Recv`: checks the communicator, resolves the
status record and a `count`-byte view over the guest buffer, calls
`world.recv` and returns 0. -/
def MPI_Recv (buffer count : Nat) (dtype : faabric_datatype_t)
    (sourceRank tag : Int) (comm : faabric_communicator_t)
    (statusPtr : Nat) : Except Fault (Int × MemView) := do
  checkMpiComm comm
  let outputs := memoryArrayPtr buffer count
  return (0, outputs)

/-- Embedding of `MPI_Isend`: as `MPI_Send` but asynchronous; the
request id returned by `world.isend` (here the parameter `requestId`)
is written through `requestPtrPtr`, and `MPI_SUCCESS` is returned.  The
result carries the buffer view and the (slot, id) write. -/
def MPI_Isend (buffer count : Nat) (dtype : faabric_datatype_t)
    (destRank tag : Int) (comm : faabric_communicator_t)
    (requestPtrPtr : Nat) (requestId : Int) :
    Except Fault (Int × MemView × Nat × Int) := do
  checkMpiComm comm
  let inputs := memoryArrayPtr buffer count
  return (MPI_SUCCESS, inputs, requestPtrPtr, requestId)

/-- Embedding of `MPI_Irecv`: as `MPI_Recv` but asynchronous, writing
the request id from `world.irecv` through `requestPtrPtr`. -/
def MPI_Irecv (buffer count : Nat) (dtype : faabric_datatype_t)
    (sourceRank tag : Int) (comm : faabric_communicator_t)
    (requestPtrPtr : Nat) (requestId : Int) :
    Except Fault (Int × MemView × Nat × Int) := do
  checkMpiComm comm
  let outputs := memoryArrayPtr buffer count
  return (MPI_SUCCESS, outputs, requestPtrPtr, requestId)

/-- Embedding of `MPI_Sendrecv`: checks the communicator, reads both
datatype descriptors and the status record, resolves a
`sendCount * sendType.size`-byte send view and a
`recvCount * recvType.size`-byte receive view, delegates to
`world.sendRecv` and returns `MPI_SUCCESS`. -/
def MPI_Sendrecv (sendBuf sendCount : Nat) (sendType : faabric_datatype_t)
    (destination sendTag : Int) (recvBuf recvCount : Nat)
    (recvType : faabric_datatype_t) (source recvTag : Int)
    (comm : faabric_communicator_t) (statusPtr : Nat) :
    Except Fault (Int × MemView × MemView) := do
  checkMpiComm comm
  let hostSendBuffer := memoryArrayPtr sendBuf (sendCount * sendType.size)
  let hostRecvBuffer := memoryArrayPtr recvBuf (recvCount * recvType.size)
  return (MPI_SUCCESS, hostSendBuffer, hostRecvBuffer)

/-! Context lifecycle.  The instance's own record is the faabric
`Message` of the invoking call; the layer reads its `mpirank` and reads
or writes its `mpiworldid`. -/

/-- Fields of the invoking instance's record (`faabric::Message`) that
the MPI layer touches: declared rank and world identifier.  Protobuf
scalars default to 0, so an unset rank reads as 0. -/
structure Message where
  mpirank : Int
  mpiworldid : Int
deriving DecidableEq, Repr

/-- Outcome of `MPI_Init`: the possibly-updated instance record, whether
`executingContext.createWorld` was requested, which world (if any) was
joined via `executingContext.joinWorld`, whether the thread-local
`ContextWrapper` was established, and the returned code. -/
structure InitOutcome where
  msg : Message
  createdWorld : Bool
  joinedWorld : Option Int
  ctxLive : Bool
  ret : Int
deriving DecidableEq, Repr

/-- Embedding of `MPI_Init`: when `call->mpirank() <= 0` the instance is
the designated creator — `createWorld` is requested from the engine and
the fresh world id (the engine's return value, here the parameter
`freshWorldId`) is recorded on the record via `set_mpiworldid`;
otherwise the world named by the record is joined and the record is left
unmodified.  Either way the thread-local context is established and 0 is
returned. -/
def MPI_Init (call : Message) (freshWorldId : Int) : InitOutcome :=
  if call.mpirank ≤ 0 then
    { msg := { mpirank := call.mpirank, mpiworldid := freshWorldId }
      createdWorld := true
      joinedWorld := none
      ctxLive := true
      ret := 0 }
  else
    { msg := call
      createdWorld := false
      joinedWorld := some call.mpiworldid
      ctxLive := true
      ret := 0 }

/-- Thread-local layer state visible to finalization: whether the
`ContextWrapper` is live, and how many destroy requests have been issued
to the coordination engine for the bound world. -/
structure LayerState where
  ctxLive : Bool
  destroyCount : Nat
deriving DecidableEq, Repr

/-- Embedding of `terminateMpi`: dereferences the thread-local context
(`ctx->world.destroy()`) — a fault if it was already nulled out —
requests destruction of the bound world, nulls the context, and returns
`MPI_SUCCESS`. -/
def terminateMpi (s : LayerState) : Except Fault (Int × LayerState) :=
  if s.ctxLive then
    .ok (MPI_SUCCESS, { ctxLive := false, destroyCount := s.destroyCount + 1 })
  else
    .error .noContext

/-- Embedding of `MPI_Abort`: ignores both arguments and returns
`terminateMpi()`. -/
def MPI_Abort (a b : Int) (s : LayerState) : Except Fault (Int × LayerState) :=
  terminateMpi s

/-- Embedding of `MPI_Finalize`: returns `terminateMpi()`. -/
def MPI_Finalize (s : LayerState) : Except Fault (Int × LayerState) :=
  terminateMpi s

/-- Dereference of the thread-local `ctx` performed by every operation
other than `MPI_Init`: a fault when the context has been nulled out. -/
def requireContext (s : LayerState) : Except Fault Unit :=
  if s.ctxLive then .ok () else .error .noContext

/-! Cartesian topology query. -/

/-- Modelled from the spec: `MpiWorld::getCartesianRank` lives in the
faabric dependency, not under `src/`.  Per the spec it "synthesizes
topology purely from world size as a fixed two-dimensional grid" and
"fills exactly 2 dimension/period/coordinate slots" of the caller's
arrays; slots at index ≥ 2 of the `maxdims`-long arrays are left
untouched.  This returns the filled-marker list for one array of length
`maxdims`. -/
def getCartesianRankFilled (maxdims : Nat) : List Bool :=
  (List.range maxdims).map (fun i => decide (i < 2))

/-- Outcome of `MPI_Cart_get` on the non-throwing path: filled-markers
for the caller's dims, periods and coords arrays, each resolved with
`maxdims` slots. -/
structure CartGetOutcome where
  dims : List Bool
  periods : List Bool
  coords : List Bool
deriving DecidableEq, Repr

/-- Embedding of `MPI_Cart_get`: throws when `maxdims` is below
`MPI_CART_MAX_DIMENSIONS` (= 2); otherwise resolves three
`maxdims`-slot arrays in guest memory, has the world fill the first two
slots of each, and returns `MPI_SUCCESS`. -/
def MPI_Cart_get (comm : Int) (maxdims : Int) :
    Except Fault (Int × CartGetOutcome) :=
  if maxdims < MPI_CART_MAX_DIMENSIONS then
    .error (.badDims maxdims)
  else
    .ok (MPI_SUCCESS,
      { dims := getCartesianRankFilled maxdims.toNat
        periods := getCartesianRankFilled maxdims.toNat
        coords := getCartesianRankFilled maxdims.toNat })

/-! Memory allocation. -/

/-- Size in bytes of one wasm page. -/
def wasmPageSize : Nat := 65536

/-- Modelled from the spec: `roundUpToWasmPageAligned` is declared
outside `src/`; per the spec the guest's linear memory is "extended by a
page-aligned amount ≥ N via the sandbox's growth primitive". -/
def roundUpToWasmPageAligned (n : Nat) : Nat :=
  ((n + wasmPageSize - 1) / wasmPageSize) * wasmPageSize

/-- Outcome of `MPI_Alloc_mem` on the non-throwing path: how many bytes
the guest's linear memory was grown by, the guest address at which the
result was written (the pointer-to-pointer argument), the guest-space
address written there (the value returned by the growth primitive), and
the returned code. -/
structure AllocOutcome where
  grownBy : Nat
  writtenAt : Nat
  writtenVal : Nat
  ret : Int
deriving DecidableEq, Repr

/-- Embedding of `MPI_Alloc_mem`: reads the info descriptor and throws
unless it is the null info; otherwise grows the module's memory by the
page-aligned size and writes the mapped address (the growth primitive's
return value, here the function parameter `growMemory`) through the
pointer-to-pointer argument, returning `MPI_SUCCESS`. -/
def MPI_Alloc_mem (memSize : Nat) (info : faabric_info_t)
    (resPtrPtr : Nat) (growMemory : Nat → Nat) : Except Fault AllocOutcome :=
  if info.id ≠ FAABRIC_INFO_NULL then
    .error .nonNullInfo
  else
    let pageAlignedSize := roundUpToWasmPageAligned memSize
    let mappedWasmPtr := growMemory pageAlignedSize
    .ok { grownBy := pageAlignedSize
          writtenAt := resPtrPtr
          writtenVal := mappedWasmPtr
          ret := MPI_SUCCESS }

/-! Theorems settling the claims. -/

/-- C1: every call in the unsupported set (ready-send, wait-all,
wait-any, vector-variant collectives, user-defined operator
creation/freeing, one-sided windows and their operations, communicator
duplication/splitting, cross-runtime handle conversion, request free,
datatype free, version query) fails fatally for every input, each with
its own named not-implemented fault, and therefore never returns a
success code. -/
theorem unsupported_calls_fail_fatally :
    (∀ a b c d e f, MPI_Rsend a b c d e f =
      .error (.notImplemented "MPI_Rsend")) ∧
    (∀ a b c, MPI_Waitall a b c = .error (.notImplemented "MPI_Waitall")) ∧
    (∀ a b c d, MPI_Waitany a b c d =
      .error (.notImplemented "MPI_Waitany")) ∧
    (∀ a b c d e f g h, MPI_Allgatherv a b c d e f g h =
      .error (.notImplemented "MPI_Allgatherv")) ∧
    (∀ a b c d e f g h i, MPI_Alltoallv a b c d e f g h i =
      .error (.notImplemented "MPI_Alltoallv")) ∧
    (∀ a b c d e f, MPI_Reduce_scatter a b c d e f =
      .error (.notImplemented "MPI_Reduce_scatter")) ∧
    (∀ a b c, MPI_Op_create a b c =
      .error (.notImplemented "MPI_Op_create")) ∧
    (∀ a, MPI_Op_free a = .error (.notImplemented "MPI_Op_free")) ∧
    (∀ a b c d e f, MPI_Win_create a b c d e f =
      .error (.notImplemented "MPI_Win_create")) ∧
    (∀ a b, MPI_Win_fence a b = .error (.notImplemented "MPI_Win_fence")) ∧
    (∀ a b c d e f g h, MPI_Get a b c d e f g h =
      .error (.notImplemented "MPI_Get")) ∧
    (∀ a b c d e f g h, MPI_Put a b c d e f g h =
      .error (.notImplemented "MPI_Put")) ∧
    (∀ a, MPI_Win_free a = .error (.notImplemented "MPI_Win_free")) ∧
    (∀ a b c d, MPI_Win_get_attr a b c d =
      .error (.notImplemented "MPI_Win_get_attr")) ∧
    (∀ a b, MPI_Comm_dup a b = .error (.notImplemented "MPI_Comm_dup")) ∧
    (∀ a b c d, MPI_Comm_split a b c d =
      .error (.notImplemented "MPI_Comm_split")) ∧
    (∀ a, MPI_Comm_c2f a = .error (.notImplemented "MPI_Comm_c2f")) ∧
    (∀ a, MPI_Comm_f2c a = .error (.notImplemented "MPI_Comm_f2c")) ∧
    (∀ a, MPI_Request_free a =
      .error (.notImplemented "MPI_Request_free")) ∧
    (∀ a, MPI_Type_free a = .error (.notImplemented "MPI_Type_free")) ∧
    (∀ a b, MPI_Get_version a b =
      .error (.notImplemented "MPI_Get_version")) := by
  refine ⟨?_, ?_, ?_, ?_, ?_, ?_, ?_, ?_, ?_, ?_, ?_, ?_, ?_, ?_, ?_, ?_,
    ?_, ?_, ?_, ?_, ?_⟩ <;> intros <;> rfl

/-- C2: for every status record and positive-size datatype descriptor,
the count query writes `bytesSize / size` through the output pointer and
returns success when the transferred byte count divides evenly; when the
division is not exact it writes nothing, returns the distinguished
non-success code 1, and does not fault (both outcomes are `.ok`). -/
theorem MPI_Get_count_exact_or_incomplete (status : MPI_Status)
    (dtype : faabric_datatype_t) (hpos : 0 < dtype.size) :
    (status.bytesSize % dtype.size = 0 →
      MPI_Get_count status dtype =
        .ok (MPI_SUCCESS, some (status.bytesSize / dtype.size))) ∧
    (status.bytesSize % dtype.size ≠ 0 →
      MPI_Get_count status dtype = .ok (1, none) ∧ (1 : Int) ≠ MPI_SUCCESS) := by
  unfold MPI_Get_count
  constructor
  · intro h
    simp [h]
  · intro h
    simp [h, MPI_SUCCESS]

/-- Witness for C2: transferred 8 bytes with datatype size 4 yields
count 2 and success; transferred 6 bytes with datatype size 4 yields the
incomplete-message code 1 and no write. -/
theorem MPI_Get_count_witness :
    MPI_Get_count ⟨8⟩ ⟨4⟩ = .ok (MPI_SUCCESS, some 2) ∧
    MPI_Get_count ⟨6⟩ ⟨4⟩ = .ok (1, none) :=
  ⟨(MPI_Get_count_exact_or_incomplete ⟨8⟩ ⟨4⟩ (by decide)).1 (by decide),
   ((MPI_Get_count_exact_or_incomplete ⟨6⟩ ⟨4⟩ (by decide)).2 (by decide)).1⟩

/-- C3: for the five collectives with separate send and receive buffers
(gather, all-gather, reduce, all-reduce, scan), when the send pointer is
recognized as the in-place sentinel and the communicator is the
recognized one, exactly one memory view is constructed — the one over
the receive pointer — and it is passed as both the send and receive
buffer to the coordination engine. -/
theorem collectives_in_place_single_view (sendBuf recvBuf : Nat)
    (sendCount recvCount count : Nat)
    (sendType recvType dtype : faabric_datatype_t) (op root : Int)
    (comm : faabric_communicator_t) (hcomm : comm.id = FAABRIC_COMM_WORLD)
    (hip : isInPlace sendBuf = true) :
    (∀ len sendLen, resolveCollectiveBuffers sendBuf recvBuf sendLen len =
      { viewsBuilt := [memoryArrayPtr recvBuf len]
        sendView := memoryArrayPtr recvBuf len
        recvView := memoryArrayPtr recvBuf len }) ∧
    MPI_Gather sendBuf sendCount sendType recvBuf recvCount recvType root
        comm = .ok (MPI_SUCCESS,
      { viewsBuilt := [⟨recvBuf, recvCount * recvType.size⟩]
        sendView := ⟨recvBuf, recvCount * recvType.size⟩
        recvView := ⟨recvBuf, recvCount * recvType.size⟩ }) ∧
    MPI_Allgather sendBuf sendCount sendType recvBuf recvCount recvType
        comm = .ok (MPI_SUCCESS,
      { viewsBuilt := [⟨recvBuf, recvCount * recvType.size⟩]
        sendView := ⟨recvBuf, recvCount * recvType.size⟩
        recvView := ⟨recvBuf, recvCount * recvType.size⟩ }) ∧
    MPI_Reduce sendBuf recvBuf count dtype op root comm =
      .ok (MPI_SUCCESS,
      { viewsBuilt := [⟨recvBuf, count * dtype.size⟩]
        sendView := ⟨recvBuf, count * dtype.size⟩
        recvView := ⟨recvBuf, count * dtype.size⟩ }) ∧
    MPI_Allreduce sendBuf recvBuf count dtype op comm =
      .ok (MPI_SUCCESS,
      { viewsBuilt := [⟨recvBuf, count⟩]
        sendView := ⟨recvBuf, count⟩
        recvView := ⟨recvBuf, count⟩ }) ∧
    MPI_Scan sendBuf recvBuf count dtype op comm =
      .ok (MPI_SUCCESS,
      { viewsBuilt := [⟨recvBuf, count * dtype.size⟩]
        sendView := ⟨recvBuf, count * dtype.size⟩
        recvView := ⟨recvBuf, count * dtype.size⟩ }) := by
  have hres : ∀ len sendLen,
      resolveCollectiveBuffers sendBuf recvBuf sendLen len =
      { viewsBuilt := [memoryArrayPtr recvBuf len]
        sendView := memoryArrayPtr recvBuf len
        recvView := memoryArrayPtr recvBuf len } := by
    intro len sendLen
    simp [resolveCollectiveBuffers, hip]
  refine ⟨hres, ?_, ?_, ?_, ?_, ?_⟩ <;>
    simp [MPI_Gather, MPI_Allgather, MPI_Reduce, MPI_Allreduce, MPI_Scan,
      checkMpiComm, hcomm, hres, memoryArrayPtr]

/-- Witness for C3: with the sentinel itself as send pointer, receive
pointer 1024, counts 3 and datatype size 4, each collective builds the
single receive view and passes it on both sides. -/
theorem collectives_in_place_witness :
    MPI_Allgather FAABRIC_IN_PLACE 3 ⟨4⟩ 1024 3 ⟨4⟩ ⟨FAABRIC_COMM_WORLD⟩ =
      .ok (MPI_SUCCESS,
        { viewsBuilt := [⟨1024, 12⟩]
          sendView := ⟨1024, 12⟩
          recvView := ⟨1024, 12⟩ }) ∧
    MPI_Reduce FAABRIC_IN_PLACE 1024 3 ⟨4⟩ 0 0 ⟨FAABRIC_COMM_WORLD⟩ =
      .ok (MPI_SUCCESS,
        { viewsBuilt := [⟨1024, 12⟩]
          sendView := ⟨1024, 12⟩
          recvView := ⟨1024, 12⟩ }) :=
  ⟨(collectives_in_place_single_view FAABRIC_IN_PLACE 1024 3 3 3 ⟨4⟩ ⟨4⟩ ⟨4⟩
      0 0 ⟨FAABRIC_COMM_WORLD⟩ rfl (by decide)).2.2.1,
   (collectives_in_place_single_view FAABRIC_IN_PLACE 1024 3 3 3 ⟨4⟩ ⟨4⟩ ⟨4⟩
      0 0 ⟨FAABRIC_COMM_WORLD⟩ rfl (by decide)).2.2.2.1⟩

/-- C4 counterexample: the claim "p is recognized iff p equals the
single reserved sentinel pointer value, compared by full pointer value"
is false — the guest pointer is truncated to its low byte at the `U8`
parameter of `isInPlace`, so the pointer value sentinel + 256, which
differs from the sentinel, is also recognized. -/
theorem isInPlace_full_value_cex :
    isInPlace (FAABRIC_IN_PLACE + 256) = true ∧
    FAABRIC_IN_PLACE + 256 ≠ FAABRIC_IN_PLACE := by
  decide

/-- C4 (amended): the in-place check recognizes a guest pointer p iff
the low 8 bits of p equal the low 8 bits of the sentinel value — the
comparison happens after truncation to one byte, so every pointer
congruent to the sentinel modulo 256 is recognized, not only the
sentinel itself. -/
theorem isInPlace_iff_low_byte (p : Nat) :
    isInPlace p = true ↔ p % 256 = FAABRIC_IN_PLACE % 256 := by
  simp [isInPlace, FAABRIC_IN_PLACE]

/-- C5 at the failing input: with count 8 and datatype size 4, the
blocking and asynchronous send/receive calls resolve a guest view of 8
bytes (`count`), not the 32 bytes (`count * size`) the claim states;
only the send-receive call resolves `count * size` byte views.  All five
require the recognized communicator. -/
theorem p2p_view_is_count_bytes :
    MPI_Send 1024 8 ⟨4⟩ 1 0 ⟨FAABRIC_COMM_WORLD⟩ = .ok (0, ⟨1024, 8⟩) ∧
    MPI_Recv 1024 8 ⟨4⟩ 1 0 ⟨FAABRIC_COMM_WORLD⟩ 2048 =
      .ok (0, ⟨1024, 8⟩) ∧
    MPI_Isend 1024 8 ⟨4⟩ 1 0 ⟨FAABRIC_COMM_WORLD⟩ 2048 7 =
      .ok (MPI_SUCCESS, ⟨1024, 8⟩, 2048, 7) ∧
    MPI_Irecv 1024 8 ⟨4⟩ 1 0 ⟨FAABRIC_COMM_WORLD⟩ 2048 7 =
      .ok (MPI_SUCCESS, ⟨1024, 8⟩, 2048, 7) ∧
    MPI_Sendrecv 1024 8 ⟨4⟩ 1 0 4096 8 ⟨4⟩ 2 0 ⟨FAABRIC_COMM_WORLD⟩ 2048 =
      .ok (MPI_SUCCESS, ⟨1024, 32⟩, ⟨4096, 32⟩) ∧
    (8 : Nat) ≠ 8 * 4 ∧
    MPI_Send 1024 8 ⟨4⟩ 1 0 ⟨0⟩ = .error (.badComm 0) := by
  refine ⟨rfl, rfl, rfl, rfl, rfl, by decide, rfl⟩

/-- C6: initialization establishes the thread-local context and returns
success; when the declared rank is unset or ≤ 0 a new world is requested
and the fresh world identifier is recorded on the instance's own record
(its rank untouched); when the declared rank is > 0 the world named by
the record is joined and the record is not modified. -/
theorem MPI_Init_create_or_join (call : Message) (freshWorldId : Int) :
    ((MPI_Init call freshWorldId).ctxLive = true ∧
      (MPI_Init call freshWorldId).ret = 0) ∧
    (call.mpirank ≤ 0 →
      (MPI_Init call freshWorldId).createdWorld = true ∧
      (MPI_Init call freshWorldId).msg.mpiworldid = freshWorldId ∧
      (MPI_Init call freshWorldId).msg.mpirank = call.mpirank ∧
      (MPI_Init call freshWorldId).joinedWorld = none) ∧
    (0 < call.mpirank →
      (MPI_Init call freshWorldId).createdWorld = false ∧
      (MPI_Init call freshWorldId).joinedWorld = some call.mpiworldid ∧
      (MPI_Init call freshWorldId).msg = call) := by
  unfold MPI_Init
  by_cases h : call.mpirank ≤ 0
  · simp [h]
  · simp [h]

/-- Witness for C6: a creator record (rank 0) gets the fresh world id 7
recorded; a joiner record (rank 2, world 5) is left unmodified and joins
world 5. -/
theorem MPI_Init_witness :
    (MPI_Init ⟨0, 0⟩ 7).createdWorld = true ∧
    (MPI_Init ⟨0, 0⟩ 7).msg.mpiworldid = 7 ∧
    (MPI_Init ⟨2, 5⟩ 7).createdWorld = false ∧
    (MPI_Init ⟨2, 5⟩ 7).joinedWorld = some 5 ∧
    (MPI_Init ⟨2, 5⟩ 7).msg = ⟨2, 5⟩ :=
  ⟨((MPI_Init_create_or_join ⟨0, 0⟩ 7).2.1 (by decide)).1,
   ((MPI_Init_create_or_join ⟨0, 0⟩ 7).2.1 (by decide)).2.1,
   ((MPI_Init_create_or_join ⟨2, 5⟩ 7).2.2 (by decide)).1,
   ((MPI_Init_create_or_join ⟨2, 5⟩ 7).2.2 (by decide)).2.1,
   ((MPI_Init_create_or_join ⟨2, 5⟩ 7).2.2 (by decide)).2.2⟩

/-- C7: abort and finalize perform exactly the same effect; from a live
context each requests exactly one world destruction, nulls out the
context, and returns success; afterwards the context is gone, so any
subsequent operation's context dereference faults. -/
theorem finalize_abort_same_effect (a b : Int) (s : LayerState)
    (hlive : s.ctxLive = true) :
    MPI_Abort a b s = MPI_Finalize s ∧
    MPI_Finalize s =
      .ok (MPI_SUCCESS, { ctxLive := false, destroyCount := s.destroyCount + 1 }) ∧
    requireContext { ctxLive := false, destroyCount := s.destroyCount + 1 } =
      .error .noContext := by
  refine ⟨rfl, ?_, rfl⟩
  unfold MPI_Finalize terminateMpi
  simp [hlive]

/-- Witness for C7: from the live state with no prior destroys, both
calls agree, one destroy is requested, and the cleared state faults on
the next context use. -/
theorem finalize_abort_witness :
    MPI_Abort 0 0 ⟨true, 0⟩ = MPI_Finalize ⟨true, 0⟩ ∧
    MPI_Finalize ⟨true, 0⟩ = .ok (MPI_SUCCESS, ⟨false, 1⟩) ∧
    requireContext ⟨false, 1⟩ = .error .noContext :=
  finalize_abort_same_effect 0 0 ⟨true, 0⟩ rfl

/-- Auxiliary: the filled-marker list for one caller array has one entry
per declared slot. -/
theorem getCartesianRankFilled_length (n : Nat) :
    (getCartesianRankFilled n).length = n := by
  simp [getCartesianRankFilled]

/-- Auxiliary: when at least two slots are declared, exactly two of them
are filled. -/
theorem getCartesianRankFilled_count (n : Nat) (h : 2 ≤ n) :
    (getCartesianRankFilled n).count true = 2 := by
  induction n with
  | zero => omega
  | succ m ih =>
    rcases Nat.lt_or_ge m 2 with hm | hm
    · have hm1 : m = 1 := by omega
      subst hm1
      decide
    · have hc := ih hm
      unfold getCartesianRankFilled at hc ⊢
      rw [List.range_succ, List.map_append, List.count_append]
      rw [hc]
      simp [Nat.not_lt.mpr hm]

/-- C8: the cartesian topology query fails fatally whenever the declared
maximum dimensions is below 2; for every declared maximum ≥ 2 it
succeeds and fills exactly 2 of the `maxdims` dimension, period and
coordinate slots of the caller's arrays. -/
theorem MPI_Cart_get_dims_check (comm maxdims : Int) :
    (maxdims < 2 → MPI_Cart_get comm maxdims = .error (.badDims maxdims)) ∧
    (2 ≤ maxdims → ∃ r, MPI_Cart_get comm maxdims = .ok (MPI_SUCCESS, r) ∧
      r.dims.length = maxdims.toNat ∧
      r.periods.length = maxdims.toNat ∧
      r.coords.length = maxdims.toNat ∧
      r.dims.count true = 2 ∧
      r.periods.count true = 2 ∧
      r.coords.count true = 2) := by
  constructor
  · intro h
    unfold MPI_Cart_get MPI_CART_MAX_DIMENSIONS
    simp [h]
  · intro h
    have hn : 2 ≤ maxdims.toNat := by omega
    refine ⟨{ dims := getCartesianRankFilled maxdims.toNat
              periods := getCartesianRankFilled maxdims.toNat
              coords := getCartesianRankFilled maxdims.toNat }, ?_,
      getCartesianRankFilled_length _,
      getCartesianRankFilled_length _, getCartesianRankFilled_length _,
      getCartesianRankFilled_count _ hn, getCartesianRankFilled_count _ hn,
      getCartesianRankFilled_count _ hn⟩
    unfold MPI_Cart_get MPI_CART_MAX_DIMENSIONS
    simp [show ¬maxdims < 2 by omega]

/-- Witness for C8: declared maximum 1 faults; declared maximum 3
succeeds with two filled slots per three-slot array. -/
theorem MPI_Cart_get_witness :
    MPI_Cart_get 0 1 = .error (.badDims 1) ∧
    ∃ r, MPI_Cart_get 0 3 = .ok (MPI_SUCCESS, r) ∧
      r.dims.length = (3 : Int).toNat ∧
      r.periods.length = (3 : Int).toNat ∧
      r.coords.length = (3 : Int).toNat ∧
      r.dims.count true = 2 ∧
      r.periods.count true = 2 ∧
      r.coords.count true = 2 :=
  ⟨(MPI_Cart_get_dims_check 0 1).1 (by decide),
   (MPI_Cart_get_dims_check 0 3).2 (by decide)⟩

/-- Auxiliary: the page-aligned growth amount is at least the requested
size and a multiple of the wasm page size. -/
theorem roundUpToWasmPageAligned_spec (n : Nat) :
    n ≤ roundUpToWasmPageAligned n ∧
    wasmPageSize ∣ roundUpToWasmPageAligned n := by
  constructor
  · unfold roundUpToWasmPageAligned wasmPageSize
    have hd := Nat.div_add_mod (n + 65536 - 1) 65536
    have hm : (n + 65536 - 1) % 65536 < 65536 :=
      Nat.mod_lt _ (by norm_num)
    omega
  · unfold roundUpToWasmPageAligned
    exact dvd_mul_left _ _

/-- C9: for every requested size, with the null info, the allocation
call grows the guest's linear memory by a page-aligned amount that is at
least the requested size, writes the address returned by the growth
primitive through the pointer-to-pointer argument, and its return value
carries only the success code, never the address. -/
theorem MPI_Alloc_mem_success (memSize : Nat) (info : faabric_info_t)
    (resPtrPtr : Nat) (growMemory : Nat → Nat)
    (hinfo : info.id = FAABRIC_INFO_NULL) :
    ∃ out, MPI_Alloc_mem memSize info resPtrPtr growMemory = .ok out ∧
      memSize ≤ out.grownBy ∧
      wasmPageSize ∣ out.grownBy ∧
      out.writtenAt = resPtrPtr ∧
      out.writtenVal = growMemory out.grownBy ∧
      out.ret = MPI_SUCCESS := by
  refine ⟨{ grownBy := roundUpToWasmPageAligned memSize
            writtenAt := resPtrPtr
            writtenVal := growMemory (roundUpToWasmPageAligned memSize)
            ret := MPI_SUCCESS }, ?_, (roundUpToWasmPageAligned_spec memSize).1,
    (roundUpToWasmPageAligned_spec memSize).2, rfl, rfl, rfl⟩
  unfold MPI_Alloc_mem
  simp [hinfo]

/-- Witness for C9: requesting 100 bytes with the null info grows by at
least 100 page-aligned bytes, writes the grown region's address at the
output slot, and returns only the success code. -/
theorem MPI_Alloc_mem_success_witness :
    ∃ out, MPI_Alloc_mem 100 ⟨FAABRIC_INFO_NULL⟩ 4 (fun _ => 131072) =
        .ok out ∧
      100 ≤ out.grownBy ∧
      wasmPageSize ∣ out.grownBy ∧
      out.writtenAt = 4 ∧
      out.writtenVal = (fun _ => 131072) out.grownBy ∧
      out.ret = MPI_SUCCESS :=
  MPI_Alloc_mem_success 100 ⟨FAABRIC_INFO_NULL⟩ 4 (fun _ => 131072) rfl

/-- C10: the allocation call faults — growing nothing and writing
nothing, its only outcome being the thrown non-null-info fault —
whenever the supplied info descriptor is not the null info; the null
info is accepted. -/
theorem MPI_Alloc_mem_info_check (memSize resPtrPtr : Nat)
    (growMemory : Nat → Nat) (info : faabric_info_t) :
    (info.id ≠ FAABRIC_INFO_NULL →
      MPI_Alloc_mem memSize info resPtrPtr growMemory =
        .error .nonNullInfo) ∧
    (info.id = FAABRIC_INFO_NULL →
      ∃ out, MPI_Alloc_mem memSize info resPtrPtr growMemory = .ok out) := by
  constructor
  · intro h
    unfold MPI_Alloc_mem
    simp [h]
  · intro h
    refine ⟨{ grownBy := roundUpToWasmPageAligned memSize
              writtenAt := resPtrPtr
              writtenVal := growMemory (roundUpToWasmPageAligned memSize)
              ret := MPI_SUCCESS }, ?_⟩
    unfold MPI_Alloc_mem
    simp [h]

/-- Witness for C10: a non-null info (id 0) faults; the null info is
accepted. -/
theorem MPI_Alloc_mem_info_witness :
    MPI_Alloc_mem 100 ⟨0⟩ 4 (fun _ => 131072) = .error .nonNullInfo ∧
    ∃ out, MPI_Alloc_mem 100 ⟨FAABRIC_INFO_NULL⟩ 4 (fun _ => 131072) =
      .ok out :=
  ⟨(MPI_Alloc_mem_info_check 100 4 (fun _ => 131072) ⟨0⟩).1 (by decide),
   (MPI_Alloc_mem_info_check 100 4 (fun _ => 131072) ⟨FAABRIC_INFO_NULL⟩).2
     rfl⟩

end FaasmMpi
